import Mathlib

/-!
Verification of the Medi_Mate nutrition-planner app (`src/app.py`).

Python strings are embedded as `List Char` (a character sequence, matching
Python's character-indexed semantics).  Python integers are `Int` where the
sign can matter (slice limits) and `Nat` for HTTP status codes.  The floats
`weight` and `height` are only ever interpolated into a template via
`str.format`, so they enter the embedding as their `str()` rendering
(e.g. `70.0` as the character list of "70.0").
-/

/-- Character list of a Lean string literal (Python strings are char sequences). -/
def ofStr (s : String) : List Char := s.data

/-- The whitespace set stripped by Python `str.strip()`: exactly the
characters on which CPython `str.isspace()` is true — tab through carriage
return (U+0009-U+000D), the information separators U+001C-U+001F, space, NEL
U+0085, NBSP U+00A0, Ogham space U+1680, the typographic spaces
U+2000-U+200A, line/paragraph separators U+2028/U+2029, narrow NBSP U+202F,
medium mathematical space U+205F and ideographic space U+3000. -/
def isPySpace (c : Char) : Bool :=
  let n := c.toNat
  (0x09 ≤ n && n ≤ 0x0d) || n == 0x20 || (0x1c ≤ n && n ≤ 0x1f) ||
    n == 0x85 || n == 0xa0 || n == 0x1680 ||
    (0x2000 ≤ n && n ≤ 0x200a) || n == 0x2028 || n == 0x2029 ||
    n == 0x202f || n == 0x205f || n == 0x3000

/-- Python `s.strip()`: remove leading and trailing whitespace. -/
def pyStrip (l : List Char) : List Char :=
  ((l.dropWhile isPySpace).reverse.dropWhile isPySpace).reverse

/-- Python prefix slice `s[:stop]` for an arbitrary integer `stop`:
a negative `stop` counts from the end, and the result is clamped to `[0, len]`. -/
def pySliceTo (l : List Char) (stop : Int) : List Char :=
  if stop < 0 then l.take (stop + (l.length : Int)).toNat
  else l.take stop.toNat

/-- Embedding of `app.py` lines 18-30: `refine_prompt`.  Builds the fixed three-line prompt
template, substituting weight, height, activity, restriction, goal and the
stripped query in that order (numeric arguments appear as their `str()` form). -/
def refine_prompt (nutrition_query weight height activity_level food_restriction goal :
    List Char) : List Char :=
  ofStr "Details: W:" ++ weight ++ ofStr "kg, H:" ++ height ++ ofStr "cm, Act:" ++
    activity_level ++ ofStr "; Restr:" ++ food_restriction ++ ofStr "; Goal:" ++ goal ++
    ofStr ".\nQuery: " ++ pyStrip nutrition_query ++
    ofStr ".\nPlan: Provide calorie intake, nutrient (g) breakdown, meal suggestions, and guidelines."

/-- Embedding of `app.py` lines 32-39: `enforce_free_tier_limit`.  Returns `prompt` when its
length does not exceed `limit`, else the Python slice `prompt[:limit]`. -/
def enforce_free_tier_limit (prompt : List Char) (limit : Int := 256) : List Char :=
  if (prompt.length : Int) > limit then pySliceTo prompt limit
  else prompt

/-- First line of a multi-line string (characters before the first newline). -/
def firstLine (l : List Char) : List Char := l.takeWhile (· ≠ '\n')

/-- Second line of a multi-line string. -/
def secondLine (l : List Char) : List Char :=
  firstLine ((l.dropWhile (· ≠ '\n')).drop 1)

/-- A parsed JSON value, as produced by `response.json()` in `app.py`. -/
inductive Json where
  | str (s : List Char)
  | num (n : Int)
  | bool (b : Bool)
  | null
  | arr (xs : List Json)
  | obj (fields : List (List Char × Json))

/-- Lowercase hexadecimal digit, as in CPython backslash escapes. -/
def hexDigit (n : Nat) : Char :=
  if n < 10 then Char.ofNat (48 + n) else Char.ofNat (87 + n)

/-- Two lowercase hex digits of a byte value. -/
def hexByte (n : Nat) : List Char := [hexDigit (n / 16 % 16), hexDigit (n % 16)]

/-- CPython `repr` quote selection for a string: single quotes, unless the
string contains a single quote and no double quote. -/
def reprQuote (s : List Char) : Char :=
  if s.contains '\x27' && !(s.contains '"') then '"' else '\x27'

/-- CPython `repr` rendering of one character inside a `q`-quoted string
literal: the quote character and the backslash get a backslash escape, tab,
newline and carriage return their mnemonic escapes, the remaining characters
below U+0020 and U+007F a `\xNN` escape, and everything else is emitted raw.
This is exactly CPython for every character below U+0080; a character at or
above U+0080 is emitted raw, which matches CPython exactly when the character
is Unicode-printable (CPython consults the Unicode database there, which is
outside this embedding). -/
def reprEscapeChar (q c : Char) : List Char :=
  if c == q || c == '\\' then ['\\', c]
  else if c == '\t' then ['\\', 't']
  else if c == '\n' then ['\\', 'n']
  else if c == '\r' then ['\\', 'r']
  else if c.toNat < 0x20 || c.toNat == 0x7f then '\\' :: 'x' :: hexByte c.toNat
  else [c]

/-- `reprEscapeChar` applied across a string. -/
def escapeAll (q : Char) : List Char → List Char
  | [] => []
  | c :: cs => reprEscapeChar q c ++ escapeAll q cs

/-- Python `repr` of a string value: chosen quote around the escaped body. -/
def strRepr (s : List Char) : List Char :=
  reprQuote s :: escapeAll (reprQuote s) s ++ [reprQuote s]

mutual

/-- Python `repr` of a parsed JSON value. -/
def pyRepr : Json → List Char
  | .str s => strRepr s
  | .num n => (toString n).data
  | .bool b => if b then ofStr "True" else ofStr "False"
  | .null => ofStr "None"
  | .arr xs => '[' :: pyReprArr xs ++ [']']
  | .obj fs => '\x7b' :: pyReprObj fs ++ ['\x7d']

/-- Comma-joined `repr`s of the elements of a Python list. -/
def pyReprArr : List Json → List Char
  | [] => []
  | [x] => pyRepr x
  | x :: y :: xs => pyRepr x ++ ofStr ", " ++ pyReprArr (y :: xs)

/-- Comma-joined `key: value` pairs of a Python dict. -/
def pyReprObj : List (List Char × Json) → List Char
  | [] => []
  | [(k, v)] => strRepr k ++ ofStr ": " ++ pyRepr v
  | (k, v) :: p :: fs => strRepr k ++ ofStr ": " ++ pyRepr v ++ ofStr ", " ++ pyReprObj (p :: fs)

end

/-- Python `str` of a parsed JSON value: the string itself for a top-level
string, `repr` for every other shape (list, dict, number, bool, None). -/
def pyStr (v : Json) : List Char :=
  match v with
  | .str s => s
  | v => pyRepr v

/-- All characters of a string are below U+0080 (7-bit ASCII). -/
def asciiStr (s : List Char) : Bool := s.all (fun c => c.toNat < 0x80)

mutual

/-- Every string and key in a parsed JSON value is ASCII: on this domain the
model's `pyStr`/`pyRepr` agree exactly with CPython's `str`/`repr`, with no
dependence on the Unicode printability database. -/
def asciiJson : Json → Bool
  | .str s => asciiStr s
  | .num _ => true
  | .bool _ => true
  | .null => true
  | .arr xs => asciiArr xs
  | .obj fs => asciiObj fs

/-- `asciiJson` across a list of values. -/
def asciiArr : List Json → Bool
  | [] => true
  | x :: xs => asciiJson x && asciiArr xs

/-- `asciiJson` across the fields of an object. -/
def asciiObj : List (List Char × Json) → Bool
  | [] => true
  | (k, v) :: fs => asciiStr k && asciiJson v && asciiObj fs

end

/-- Does the first list start the second one? -/
def listStarts : List Char → List Char → Bool
  | [], _ => true
  | _ :: _, [] => false
  | a :: as, b :: bs => a == b && listStarts as bs

/-- Contiguous-substring test, Python's `in` on strings. -/
def listHasSub (needle : List Char) : List Char → Bool
  | [] => needle.isEmpty
  | h :: t => listStarts needle (h :: t) || listHasSub needle t

/-- Python membership `key in x` for a string `key`: dict-key lookup on a dict,
element equality on a list, substring test on a string; a `TypeError`
(modelled as `Except.error`) on any non-container value. -/
def jsonContains (key : List Char) : Json → Except Unit Bool
  | .obj fs => .ok (fs.any (fun p => p.1 == key))
  | .arr xs => .ok (xs.any (fun v => match v with | .str s => s == key | _ => false))
  | .str s => .ok (listHasSub key s)
  | _ => .error ()

/-- Python indexing `x[key]` for a string `key`: dict lookup on a dict (a
`KeyError` when absent), a `TypeError` on every other value. -/
def jsonIndex (x : Json) (key : List Char) : Except Unit Json :=
  match x with
  | .obj fs =>
    match fs.find? (fun p => p.1 == key) with
    | some p => .ok p.2
    | none => .error ()
  | _ => .error ()

/-- An HTTP response as `call_deepseek_api` consumes it: the status code, the
raw body text (`response.text`) and the parsed JSON body (`response.json()`,
assumed to parse — both success-branch claims start from the parsed value). -/
structure HttpResponse where
  status_code : Nat
  text : List Char
  body : Json

/-- The string built by `app.py` line 56: `f"Error: \x7bresponse.status_code\x7d - \x7bresponse.text\x7d"`. -/
def errorString (r : HttpResponse) : List Char :=
  ofStr "Error: " ++ (toString r.status_code).data ++ ofStr " - " ++ r.text

/-- Embedding of `app.py` lines 58-61: the success-branch body handling of
`call_deepseek_api`.  When the parsed value is a non-empty list, Python
evaluates `"generated_text" in result[0]` (which raises `TypeError` on a
non-container first element) and on success indexes `result[0]` (which raises
on a non-dict); otherwise it returns `str(result)`. -/
def handleBody (result : Json) : Except Unit Json :=
  match result with
  | .arr (x :: _) =>
    match jsonContains (ofStr "generated_text") x with
    | .error e => .error e
    | .ok c =>
      if c then jsonIndex x (ofStr "generated_text")
      else .ok (.str (pyStr result))
  | _ => .ok (.str (pyStr result))

/-- Embedding of `app.py` lines 41-61: `call_deepseek_api`, as a function of the HTTP
response the POST produced.  Non-200 statuses return the formatted error
string; a 200 status parses the body.  An uncaught Python exception is
`Except.error`. -/
def call_deepseek_api (r : HttpResponse) : Except Unit Json :=
  if r.status_code ≠ 200 then .ok (.str (errorString r))
  else handleBody r.body

/-- Embedding of `app.py` lines 63-70: `verify_with_medical_db`, the verification stub. -/
def verify_with_medical_db (response_text : List Char) : Bool × List Char :=
  (true, ofStr "Response verified against trusted nutrition and medical databases.")

/-- Outcome of the primary submit handler (`app.py` lines 104-128): either the
inline validation error, or the pipeline's artifacts — the raw prompt, the
truncated prompt that is POSTed, and the API result. -/
inductive SubmitOutcome where
  | validationError
  | pipeline (raw sent : List Char) (response : Except Unit Json)

/-- The prompts POSTed to the remote API by an outcome (empty list = no call). -/
def apiCalls : SubmitOutcome → List (List Char)
  | .validationError => []
  | .pipeline _ sent _ => [sent]

/-- Embedding of `app.py` lines 104-122: the primary submit handler.  `remote` is the HTTP
oracle mapping the POSTed prompt to the response.  An empty or whitespace-only
query (`if not nutrition_query.strip()`) surfaces the validation error and
builds no prompt; otherwise the handler runs refine, enforce (limit 256) and
the API call in sequence. -/
def primary_submit (remote : List Char → HttpResponse)
    (nutrition_query weight height activity_level food_restriction goal : List Char) :
    SubmitOutcome :=
  if pyStrip nutrition_query = [] then .validationError
  else
    let engineered_prompt :=
      refine_prompt nutrition_query weight height activity_level food_restriction goal
    let truncated_prompt := enforce_free_tier_limit engineered_prompt 256
    .pipeline engineered_prompt truncated_prompt (call_deepseek_api (remote truncated_prompt))

/-- Embedding of `app.py` lines 132-146: the follow-up handler.  It sees only the new
clarification text and the same six profile fields — no artifact of the first
exchange is in scope.  Empty/whitespace clarification does nothing (`none`);
otherwise it runs the same refine / enforce-256 / call sequence. -/
def followup_submit (remote : List Char → HttpResponse)
    (additional_info weight height activity_level food_restriction goal : List Char) :
    Option (List Char × List Char × Except Unit Json) :=
  if pyStrip additional_info = [] then none
  else
    let refined_followup_prompt :=
      refine_prompt additional_info weight height activity_level food_restriction goal
    let truncated_followup := enforce_free_tier_limit refined_followup_prompt 256
    some (refined_followup_prompt, truncated_followup,
      call_deepseek_api (remote truncated_followup))

/-- Embedding of `app.py` lines 6-9: the startup guard `if not HUGGINGFACE_API_KEY`.
`os.environ.get` yields `none` when the variable is unset; `not` is Python
truthiness, so `none` and the empty string both halt startup. -/
def startup_blocked (env_key : Option (List Char)) : Bool :=
  match env_key with
  | none => true
  | some k => k.isEmpty

/-- The prompts POSTed by the follow-up handler (empty list = no call). -/
def followupApiCalls : Option (List Char × List Char × Except Unit Json) → List (List Char)
  | none => []
  | some (_, sent, _) => [sent]

example : pyStrip (ofStr "  lose weight  ") = ofStr "lose weight" := by decide
example : pyStrip (ofStr "\x1c\u00a0 diet\u0085\u2028") = ofStr "diet" := by decide
example : pyStrip (ofStr "\x1c \u00a0\u3000") = ofStr "" := by decide
example :
    pyStr (.arr [.obj [(ofStr "x", .str (ofStr "it" ++ ['\x27'] ++ ofStr "s"))]]) =
      ofStr "[\x7b\x27x\x27: \"it" ++ ['\x27'] ++ ofStr "s\"\x7d]" := by decide
example : pyStr (.arr [.str (ofStr "a\nb\\c\x01")]) =
    ofStr "[\x27a\\nb\\\\c\\x01\x27]" := by decide
example : enforce_free_tier_limit (ofStr "ab") (-1) = ofStr "a" := by decide
example : enforce_free_tier_limit (ofStr "a") (-1) = ofStr "" := by decide
example : jsonContains (ofStr "generated_text") (.num 5) = .error () := rfl
example : pyStr (.arr [.num 5]) = ofStr "[5]" := by decide
example : pyStr (.obj [(ofStr "unexpected", .str (ofStr "shape"))]) =
    ofStr "\x7b\x27unexpected\x27: \x27shape\x27\x7d" := by decide

/-- A string no longer than the limit passes `enforce_free_tier_limit` unchanged. -/
lemma enforce_eq_self_of_le (t : List Char) (L : Int) (h : (t.length : Int) ≤ L) :
    enforce_free_tier_limit t L = t := by
  unfold enforce_free_tier_limit
  rw [if_neg (by omega : ¬ (t.length : Int) > L)]

/-- For a non-negative limit the result length is `min (length) (limit)`. -/
lemma enforce_length_eq (s : List Char) (L : Int) (h : 0 ≤ L) :
    (enforce_free_tier_limit s L).length = min s.length L.toNat := by
  unfold enforce_free_tier_limit pySliceTo
  by_cases hc : (s.length : Int) > L
  · rw [if_pos hc, if_neg (by omega : ¬ L < 0), List.length_take]
    omega
  · rw [if_neg hc]
    omega

/-- `dropWhile` empties a list all of whose elements satisfy the predicate. -/
lemma dropWhile_all_eq_nil (p : Char → Bool) (l : List Char) (h : l.all p = true) :
    l.dropWhile p = [] := by
  induction l with
  | nil => rfl
  | cons a t ih =>
    simp only [List.all_cons, Bool.and_eq_true] at h
    simp [List.dropWhile_cons, h.1, ih h.2]

/-- Stripping a whitespace-only string yields the empty string. -/
lemma pyStrip_eq_nil_of_all (l : List Char) (h : l.all isPySpace = true) :
    pyStrip l = [] := by
  unfold pyStrip
  rw [dropWhile_all_eq_nil _ _ h]
  rfl

/-- C2: for every string `s` and integer limit `L ≥ 0`, `enforce_free_tier_limit s L`
has length `min (len s) L`, is `s` itself when `len s ≤ L`, and is exactly the
first `L` characters of `s` otherwise. -/
theorem enforce_free_tier_limit_nonneg_spec (s : List Char) (L : Int) (h : 0 ≤ L) :
    (enforce_free_tier_limit s L).length = min s.length L.toNat
    ∧ ((s.length : Int) ≤ L → enforce_free_tier_limit s L = s)
    ∧ (L < (s.length : Int) → enforce_free_tier_limit s L = s.take L.toNat) := by
  refine ⟨enforce_length_eq s L h, ?_, ?_⟩
  · exact fun hle => enforce_eq_self_of_le s L hle
  · intro hlt
    unfold enforce_free_tier_limit pySliceTo
    rw [if_pos (by omega : (s.length : Int) > L), if_neg (by omega : ¬ L < 0)]

theorem enforce_free_tier_limit_nonneg_spec_witness :
    (enforce_free_tier_limit (ofStr "abcde") 3).length = min (ofStr "abcde").length (Int.toNat 3)
    ∧ (((ofStr "abcde").length : Int) ≤ 3 → enforce_free_tier_limit (ofStr "abcde") 3 = ofStr "abcde")
    ∧ (3 < ((ofStr "abcde").length : Int) →
        enforce_free_tier_limit (ofStr "abcde") 3 = (ofStr "abcde").take (Int.toNat 3)) :=
  enforce_free_tier_limit_nonneg_spec (ofStr "abcde") 3 (by decide)

/-- C5 counterexample: with the negative limit `-1` the enforcer is not
idempotent: `enforce("ab", -1) = "a"` but `enforce("a", -1) = ""`. -/
theorem enforce_free_tier_limit_idem_neg_counterexample :
    enforce_free_tier_limit (enforce_free_tier_limit (ofStr "ab") (-1)) (-1) ≠
      enforce_free_tier_limit (ofStr "ab") (-1) := by decide

/-- C5 (amended): for every non-negative limit `L`, `enforce_free_tier_limit`
is idempotent: applying it twice with the same `L` equals applying it once. -/
theorem enforce_free_tier_limit_idem (s : List Char) (L : Int) (h : 0 ≤ L) :
    enforce_free_tier_limit (enforce_free_tier_limit s L) L =
      enforce_free_tier_limit s L := by
  apply enforce_eq_self_of_le
  rw [enforce_length_eq s L h]
  omega

theorem enforce_free_tier_limit_idem_witness :
    enforce_free_tier_limit (enforce_free_tier_limit (ofStr "abcde") 3) 3 =
      enforce_free_tier_limit (ofStr "abcde") 3 :=
  enforce_free_tier_limit_idem (ofStr "abcde") 3 (by decide)

/-- C9: for a negative limit `L`, `enforce_free_tier_limit s L` is `s` with the
last `|L|` characters removed (Python negative-slice semantics): its length is
`max 0 (len s + L)`, never `min (len s) L` (which is negative). -/
theorem enforce_free_tier_limit_negative_spec (s : List Char) (L : Int) (h : L < 0) :
    enforce_free_tier_limit s L = s.take ((s.length : Int) + L).toNat
    ∧ ((enforce_free_tier_limit s L).length : Int) = max 0 ((s.length : Int) + L)
    ∧ ((enforce_free_tier_limit s L).length : Int) ≠ min (s.length : Int) L := by
  unfold enforce_free_tier_limit pySliceTo
  rw [if_pos (by omega : (s.length : Int) > L), if_pos h]
  refine ⟨by rw [Int.add_comm], ?_, ?_⟩
  · rw [List.length_take]; omega
  · rw [List.length_take]; omega

theorem enforce_free_tier_limit_negative_spec_witness :
    enforce_free_tier_limit (ofStr "abc") (-1) =
      (ofStr "abc").take (Int.toNat (((ofStr "abc").length : Int) + (-1)))
    ∧ ((enforce_free_tier_limit (ofStr "abc") (-1)).length : Int) =
        max 0 (((ofStr "abc").length : Int) + (-1))
    ∧ ((enforce_free_tier_limit (ofStr "abc") (-1)).length : Int) ≠
        min ((ofStr "abc").length : Int) (-1) :=
  enforce_free_tier_limit_negative_spec (ofStr "abc") (-1) (by decide)

/-- C7: the verification stub returns `(true, <fixed message>)` on every input,
independent of the input. -/
theorem verify_with_medical_db_const :
    ∀ s : List Char,
      verify_with_medical_db s =
        (true, ofStr "Response verified against trusted nutrition and medical databases.")
      ∧ verify_with_medical_db s = verify_with_medical_db [] :=
  fun _ => ⟨rfl, rfl⟩

/-- C10: startup halts when the API-key variable is unset (`none`) and also
when it is set to the empty string; it proceeds for every non-empty key. -/
theorem startup_blocked_spec :
    startup_blocked none = true ∧ startup_blocked (some []) = true ∧
      ∀ k : List Char, k ≠ [] → startup_blocked (some k) = false := by
  refine ⟨rfl, rfl, ?_⟩
  intro k hk
  cases k with
  | nil => exact absurd rfl hk
  | cons a t => rfl

theorem startup_blocked_spec_witness : startup_blocked (some (ofStr "hf_key")) = false :=
  startup_blocked_spec.2.2 (ofStr "hf_key") (by decide)

/-- C3: `refine_prompt` always returns the three-line template with the six
values substituted in the fixed order weight, height, activity, restriction,
goal, stripped query — so each value appears verbatim between the fixed
separators.  At the documented concrete profile the first line is exactly
`Details: W:70.0kg, H:170.0cm, Act:Sedentary; Restr:None; Goal:Maintenance.`,
the query line uses the trimmed `lose weight`, and stripping removes only
leading/trailing whitespace (internal runs survive). -/
theorem refine_prompt_spec :
    (∀ q w h a r g : List Char,
      refine_prompt q w h a r g =
        ofStr "Details: W:" ++ w ++ ofStr "kg, H:" ++ h ++ ofStr "cm, Act:" ++ a ++
          ofStr "; Restr:" ++ r ++ ofStr "; Goal:" ++ g ++ ofStr ".\nQuery: " ++
          pyStrip q ++
          ofStr ".\nPlan: Provide calorie intake, nutrient (g) breakdown, meal suggestions, and guidelines.")
    ∧ firstLine (refine_prompt (ofStr "  lose weight  ") (ofStr "70.0") (ofStr "170.0")
        (ofStr "Sedentary") (ofStr "None") (ofStr "Maintenance")) =
      ofStr "Details: W:70.0kg, H:170.0cm, Act:Sedentary; Restr:None; Goal:Maintenance."
    ∧ secondLine (refine_prompt (ofStr "  lose weight  ") (ofStr "70.0") (ofStr "170.0")
        (ofStr "Sedentary") (ofStr "None") (ofStr "Maintenance")) =
      ofStr "Query: lose weight."
    ∧ pyStrip (ofStr " \t a  b \n ") = ofStr "a  b" :=
  ⟨fun _ _ _ _ _ _ => rfl, by decide, by decide, by decide⟩

/-- C6: a whitespace-only (or empty) query makes the primary submit handler
surface the validation error and build no prompt and POST nothing; a query with
non-empty strip runs the full pipeline and POSTs exactly the enforced prompt. -/
theorem primary_submit_validation_spec
    (remote : List Char → HttpResponse) (q w h a r g : List Char) :
    (q.all isPySpace = true →
      primary_submit remote q w h a r g = .validationError
      ∧ apiCalls (primary_submit remote q w h a r g) = [])
    ∧ (pyStrip q ≠ [] →
      primary_submit remote q w h a r g =
        .pipeline (refine_prompt q w h a r g)
          (enforce_free_tier_limit (refine_prompt q w h a r g) 256)
          (call_deepseek_api (remote (enforce_free_tier_limit (refine_prompt q w h a r g) 256)))
      ∧ apiCalls (primary_submit remote q w h a r g) =
          [enforce_free_tier_limit (refine_prompt q w h a r g) 256]) := by
  constructor
  · intro hall
    unfold primary_submit
    rw [if_pos (pyStrip_eq_nil_of_all q hall)]
    exact ⟨rfl, rfl⟩
  · intro hne
    unfold primary_submit
    rw [if_neg hne]
    exact ⟨rfl, rfl⟩

theorem primary_submit_validation_spec_witness :
    (primary_submit (fun _ => ⟨200, [], .arr []⟩) (ofStr "  \n ") (ofStr "70.0")
        (ofStr "170.0") (ofStr "Sedentary") (ofStr "None") (ofStr "Maintenance") =
      .validationError)
    ∧ apiCalls (primary_submit (fun _ => ⟨200, [], .arr []⟩) (ofStr "hi") (ofStr "70.0")
        (ofStr "170.0") (ofStr "Sedentary") (ofStr "None") (ofStr "Maintenance")) =
      [enforce_free_tier_limit
        (refine_prompt (ofStr "hi") (ofStr "70.0") (ofStr "170.0") (ofStr "Sedentary")
          (ofStr "None") (ofStr "Maintenance")) 256] :=
  ⟨((primary_submit_validation_spec (fun _ => ⟨200, [], .arr []⟩) (ofStr "  \n ")
      (ofStr "70.0") (ofStr "170.0") (ofStr "Sedentary") (ofStr "None")
      (ofStr "Maintenance")).1 (by decide)).1,
   ((primary_submit_validation_spec (fun _ => ⟨200, [], .arr []⟩) (ofStr "hi")
      (ofStr "70.0") (ofStr "170.0") (ofStr "Sedentary") (ofStr "None")
      (ofStr "Maintenance")).2 (by decide)).2⟩

/-- C8: for a clarification text with non-empty strip, the follow-up handler
produces exactly the artifacts of the primary pipeline run on the same text and
the same six profile fields — same refined prompt, same 256-enforced prompt,
same API call — and (by the shape of `followup_submit`, which takes only the
clarification text and the profile) nothing of the first exchange enters it. -/
theorem followup_submit_matches_primary
    (remote : List Char → HttpResponse) (info w h a r g : List Char)
    (hne : pyStrip info ≠ []) :
    followup_submit remote info w h a r g =
      some (refine_prompt info w h a r g,
        enforce_free_tier_limit (refine_prompt info w h a r g) 256,
        call_deepseek_api (remote (enforce_free_tier_limit (refine_prompt info w h a r g) 256)))
    ∧ primary_submit remote info w h a r g =
        .pipeline (refine_prompt info w h a r g)
          (enforce_free_tier_limit (refine_prompt info w h a r g) 256)
          (call_deepseek_api (remote (enforce_free_tier_limit (refine_prompt info w h a r g) 256)))
    ∧ followupApiCalls (followup_submit remote info w h a r g) =
        apiCalls (primary_submit remote info w h a r g) := by
  unfold followup_submit primary_submit
  rw [if_neg hne, if_neg hne]
  exact ⟨rfl, rfl, rfl⟩

theorem followup_submit_matches_primary_witness :
    followupApiCalls (followup_submit (fun _ => ⟨200, [], .arr []⟩) (ofStr "more protein")
        (ofStr "70.0") (ofStr "170.0") (ofStr "Sedentary") (ofStr "None")
        (ofStr "Maintenance")) =
      apiCalls (primary_submit (fun _ => ⟨200, [], .arr []⟩) (ofStr "more protein")
        (ofStr "70.0") (ofStr "170.0") (ofStr "Sedentary") (ofStr "None")
        (ofStr "Maintenance")) :=
  (followup_submit_matches_primary (fun _ => ⟨200, [], .arr []⟩) (ofStr "more protein")
    (ofStr "70.0") (ofStr "170.0") (ofStr "Sedentary") (ofStr "None")
    (ofStr "Maintenance") (by decide)).2.2

/-- C1 counterexample: status 201 is a 2xx success, yet `call_deepseek_api`
returns the formatted error string instead of parsing the body (whose
`generated_text` is `X`): the error branch triggers on every status `≠ 200`,
not only on non-2xx statuses. -/
theorem call_deepseek_api_2xx_success_counterexample :
    (200 ≤ 201 ∧ 201 < 300)
    ∧ call_deepseek_api ⟨201, ofStr "created",
        .arr [.obj [(ofStr "generated_text", .str (ofStr "X"))]]⟩ =
      .ok (.str (ofStr "Error: 201 - created"))
    ∧ handleBody (.arr [.obj [(ofStr "generated_text", .str (ofStr "X"))]]) =
      .ok (.str (ofStr "X"))
    ∧ ofStr "Error: 201 - created" ≠ ofStr "X" :=
  ⟨⟨by omega, by omega⟩, rfl, rfl, by decide⟩

/-- C1 (amended): `call_deepseek_api` returns the string
`Error: <status> - <body>` exactly when the status differs from 200 (not for
all non-2xx statuses); on status 200 it proceeds to parse the JSON body. -/
theorem call_deepseek_api_error_iff_status_200 (r : HttpResponse) :
    (r.status_code ≠ 200 → call_deepseek_api r = .ok (.str (errorString r)))
    ∧ (r.status_code = 200 → call_deepseek_api r = handleBody r.body) := by
  constructor
  · intro hne
    unfold call_deepseek_api
    rw [if_pos hne]
  · intro heq
    unfold call_deepseek_api
    rw [if_neg (fun hne => hne heq)]

theorem call_deepseek_api_error_iff_status_200_witness :
    call_deepseek_api ⟨404, ofStr "Not Found", .null⟩ =
      .ok (.str (errorString ⟨404, ofStr "Not Found", .null⟩))
    ∧ call_deepseek_api ⟨200, [], .arr []⟩ = handleBody (Json.arr []) :=
  ⟨(call_deepseek_api_error_iff_status_200 ⟨404, ofStr "Not Found", .null⟩).1 (by decide),
   (call_deepseek_api_error_iff_status_200 ⟨200, [], .arr []⟩).2 rfl⟩

/-- C4 counterexample: on status 200 with parsed body `[5]` — a non-empty list
whose first element lacks `generated_text` — the code does not return the
stringified body `[5]`: Python raises `TypeError` evaluating
`"generated_text" in 5` (modelled as `Except.error`). -/
theorem call_deepseek_api_success_typeerror_counterexample :
    call_deepseek_api ⟨200, ofStr "[5]", .arr [.num 5]⟩ = .error ()
    ∧ (Except.error () : Except Unit Json) ≠ .ok (.str (pyStr (.arr [.num 5]))) :=
  ⟨rfl, fun hx => nomatch hx⟩

/-- C4 (amended): on status 200, when the parsed body is a non-empty list whose
first element is a dict containing `generated_text`, the field's value is
returned; when it is a non-empty list whose first element is a dict lacking the
key, an empty list, or a non-list, the stringified body `str(result)` is
returned.  (When the first element is not a dict the membership test or
indexing can raise instead — see the counterexample.)  The `str(result)`
conclusions are stated for bodies whose strings are ASCII (`asciiJson`): there
the model's `pyStr` coincides exactly with CPython's `str`, including `repr`
quote selection and escaping; for characters at or above U+0080 CPython's
rendering consults the Unicode printability database, which this embedding
does not model. -/
theorem call_deepseek_api_success_spec (r : HttpResponse) (h : r.status_code = 200) :
    (∀ fs rest v, r.body = .arr (.obj fs :: rest) →
        fs.find? (fun p => p.1 == ofStr "generated_text") = some v →
        call_deepseek_api r = .ok v.2)
    ∧ (asciiJson r.body = true →
        (∀ fs rest, r.body = .arr (.obj fs :: rest) →
          fs.find? (fun p => p.1 == ofStr "generated_text") = none →
          call_deepseek_api r = .ok (.str (pyStr r.body)))
        ∧ (r.body = .arr [] → call_deepseek_api r = .ok (.str (pyStr r.body)))
        ∧ ((∀ xs, r.body ≠ .arr xs) → call_deepseek_api r = .ok (.str (pyStr r.body)))) := by
  have hcall : call_deepseek_api r = handleBody r.body := by
    unfold call_deepseek_api
    rw [if_neg (fun hne => hne h)]
  constructor
  · intro fs rest v hbody hfind
    rw [hcall, hbody]
    have hpv := List.find?_some hfind
    have hmem := List.mem_of_find?_eq_some hfind
    have hany : fs.any (fun p => p.1 == ofStr "generated_text") = true :=
      List.any_eq_true.mpr ⟨v, hmem, hpv⟩
    simp [handleBody, jsonContains, hany, jsonIndex, hfind]
  · intro _
    refine ⟨?_, ?_, ?_⟩
    · intro fs rest hbody hfind
      rw [hcall, hbody]
      have hany : fs.any (fun p => p.1 == ofStr "generated_text") = false := by
        cases hany : fs.any (fun p => p.1 == ofStr "generated_text") with
        | false => rfl
        | true =>
          obtain ⟨x, hx, hpx⟩ := List.any_eq_true.mp hany
          exact absurd hpx (List.find?_eq_none.mp hfind x hx)
      simp [handleBody, jsonContains, hany]
    · intro hbody
      rw [hcall, hbody]
      rfl
    · intro hne
      rw [hcall]
      cases hb : r.body with
      | str s => rfl
      | num n => rfl
      | bool b => rfl
      | null => rfl
      | arr xs => exact absurd hb (hne xs)
      | obj fs => rfl

theorem call_deepseek_api_success_spec_witness :
    call_deepseek_api ⟨200, [], .arr [.obj [(ofStr "generated_text", .str (ofStr "X"))]]⟩ =
      .ok (Json.str (ofStr "X"))
    ∧ call_deepseek_api ⟨200, [], .obj [(ofStr "unexpected", .str (ofStr "shape"))]⟩ =
      .ok (.str (pyStr (.obj [(ofStr "unexpected", .str (ofStr "shape"))]))) :=
  ⟨(call_deepseek_api_success_spec
      ⟨200, [], .arr [.obj [(ofStr "generated_text", .str (ofStr "X"))]]⟩ rfl).1
      [(ofStr "generated_text", .str (ofStr "X"))] []
      (ofStr "generated_text", .str (ofStr "X")) rfl rfl,
   ((call_deepseek_api_success_spec
      ⟨200, [], .obj [(ofStr "unexpected", .str (ofStr "shape"))]⟩ rfl).2
      (by decide)).2.2
      (fun _ hxs => nomatch hxs)⟩
